import Mathlib


/-!
Verification of the battle-simulation core of the Pokemon Run-and-Bun helper.

The definitions below are shallow embeddings of the Python source:
`backend/battle_logic.py`, `backend/main.py` and `backend/ai_logic.py`.
Python floats are modelled as exact rationals (the source's formulas are
real-number formulas evaluated until a final floor), Python ints as `Int`,
dictionaries with fixed key sets as structures, and the in-place mutation
of the battle-state dictionary as explicit state passing.
-/


/-! ## Definitions: the embedded data model and operations -/

/-- The 18 elemental types (the `Type` enum of `backend/main.py`). -/
inductive PType where
  | Normal | Fire | Water | Electric | Grass | Ice | Fighting | Poison | Ground
  | Flying | Psychic | Bug | Rock | Ghost | Dragon | Dark | Steel | Fairy
deriving DecidableEq, Repr

/-- One entry of `TYPE_CHART` in `backend/battle_logic.py`: the factor for an
attack type against one defender type; a pair absent from the chart has
factor 1 (the lookup in `calculate_type_effectiveness` skips it). -/
def chartFactor : PType → PType → ℚ
  | .Normal, .Ghost => 0
  | .Normal, .Rock => 1/2
  | .Normal, .Steel => 1/2
  | .Fire, .Fire => 1/2
  | .Fire, .Water => 1/2
  | .Fire, .Grass => 2
  | .Fire, .Ice => 2
  | .Fire, .Bug => 2
  | .Fire, .Rock => 1/2
  | .Fire, .Dragon => 1/2
  | .Fire, .Steel => 2
  | .Water, .Fire => 2
  | .Water, .Water => 1/2
  | .Water, .Grass => 1/2
  | .Water, .Ground => 2
  | .Water, .Rock => 2
  | .Water, .Dragon => 1/2
  | .Electric, .Water => 2
  | .Electric, .Electric => 1/2
  | .Electric, .Grass => 1/2
  | .Electric, .Ground => 0
  | .Electric, .Flying => 2
  | .Electric, .Dragon => 1/2
  | .Grass, .Fire => 1/2
  | .Grass, .Water => 2
  | .Grass, .Grass => 1/2
  | .Grass, .Poison => 1/2
  | .Grass, .Ground => 2
  | .Grass, .Flying => 1/2
  | .Grass, .Bug => 1/2
  | .Grass, .Rock => 2
  | .Grass, .Dragon => 1/2
  | .Grass, .Steel => 1/2
  | .Ice, .Fire => 1/2
  | .Ice, .Water => 1/2
  | .Ice, .Grass => 2
  | .Ice, .Ice => 1/2
  | .Ice, .Ground => 2
  | .Ice, .Flying => 2
  | .Ice, .Dragon => 2
  | .Ice, .Steel => 1/2
  | .Fighting, .Normal => 2
  | .Fighting, .Ice => 2
  | .Fighting, .Poison => 1/2
  | .Fighting, .Flying => 1/2
  | .Fighting, .Psychic => 1/2
  | .Fighting, .Bug => 1/2
  | .Fighting, .Rock => 2
  | .Fighting, .Ghost => 0
  | .Fighting, .Dark => 2
  | .Fighting, .Steel => 2
  | .Fighting, .Fairy => 1/2
  | .Poison, .Grass => 2
  | .Poison, .Poison => 1/2
  | .Poison, .Ground => 1/2
  | .Poison, .Rock => 1/2
  | .Poison, .Ghost => 1/2
  | .Poison, .Steel => 0
  | .Poison, .Fairy => 2
  | .Ground, .Fire => 2
  | .Ground, .Electric => 2
  | .Ground, .Grass => 1/2
  | .Ground, .Poison => 2
  | .Ground, .Flying => 0
  | .Ground, .Bug => 1/2
  | .Ground, .Rock => 2
  | .Ground, .Steel => 2
  | .Flying, .Electric => 1/2
  | .Flying, .Grass => 2
  | .Flying, .Fighting => 2
  | .Flying, .Bug => 2
  | .Flying, .Rock => 1/2
  | .Flying, .Steel => 1/2
  | .Psychic, .Fighting => 2
  | .Psychic, .Poison => 2
  | .Psychic, .Psychic => 1/2
  | .Psychic, .Dark => 0
  | .Psychic, .Steel => 1/2
  | .Bug, .Fire => 1/2
  | .Bug, .Grass => 2
  | .Bug, .Fighting => 1/2
  | .Bug, .Poison => 1/2
  | .Bug, .Flying => 1/2
  | .Bug, .Psychic => 2
  | .Bug, .Ghost => 1/2
  | .Bug, .Dark => 2
  | .Bug, .Steel => 1/2
  | .Bug, .Fairy => 1/2
  | .Rock, .Fire => 2
  | .Rock, .Ice => 2
  | .Rock, .Fighting => 1/2
  | .Rock, .Ground => 1/2
  | .Rock, .Flying => 2
  | .Rock, .Bug => 2
  | .Rock, .Steel => 1/2
  | .Ghost, .Normal => 0
  | .Ghost, .Psychic => 2
  | .Ghost, .Ghost => 2
  | .Ghost, .Dark => 1/2
  | .Dragon, .Dragon => 2
  | .Dragon, .Steel => 1/2
  | .Dragon, .Fairy => 0
  | .Dark, .Fighting => 1/2
  | .Dark, .Psychic => 2
  | .Dark, .Ghost => 2
  | .Dark, .Dark => 1/2
  | .Dark, .Fairy => 1/2
  | .Steel, .Fire => 1/2
  | .Steel, .Water => 1/2
  | .Steel, .Electric => 1/2
  | .Steel, .Ice => 2
  | .Steel, .Rock => 2
  | .Steel, .Steel => 1/2
  | .Steel, .Fairy => 2
  | .Fairy, .Fire => 1/2
  | .Fairy, .Fighting => 2
  | .Fairy, .Poison => 1/2
  | .Fairy, .Dragon => 2
  | .Fairy, .Dark => 2
  | .Fairy, .Steel => 1/2
  | _, _ => 1

/-- Embedding of `calculate_type_effectiveness` in `backend/battle_logic.py`:
the running product over the defender's types of the chart factor
(starting at 1.0). -/
def calculate_type_effectiveness (moveType : PType) (defenderTypes : List PType) : ℚ :=
  defenderTypes.foldl (fun m d => m * chartFactor moveType d) 1

/-- The six numeric stats of a combatant (the `stats` dictionary of the
`Pokemon` model in `backend/main.py`, keys HP, Attack, Defense, Sp. Attack,
Sp. Defense, Speed). -/
structure Stats where
  HP : ℤ
  Attack : ℤ
  Defense : ℤ
  SpAttack : ℤ
  SpDefense : ℤ
  Speed : ℤ
deriving DecidableEq, Repr

/-- Stat-stage modifiers (the `stat_stages` dictionary; a missing key reads
as 0, so a total record of integers models it). -/
structure StatStages where
  Attack : ℤ
  Defense : ℤ
  SpAttack : ℤ
  SpDefense : ℤ
  Speed : ℤ
deriving DecidableEq, Repr

/-- All stages zero, the default `stat_stages = {}` of the source model. -/
def stages0 : StatStages := ⟨0, 0, 0, 0, 0⟩

/-- The fields of the `Move` model used by the battle logic. -/
structure Move where
  name : String
  type : PType
  power : Option ℤ
  category : String
  priority : ℤ
deriving DecidableEq, Repr

/-- The fields of the `Pokemon` model used by the battle logic. -/
structure Pokemon where
  name : String
  types : List PType
  moves : List Move
  stats : Stats
  level : ℤ
  current_hp : Option ℤ
  stat_stages : StatStages
deriving DecidableEq, Repr

/-- The `Team` model: a roster plus the index of the active combatant. -/
structure Team where
  pokemon : List Pokemon
  active_pokemon_index : ℕ
deriving DecidableEq, Repr

/-- The parts of the `BattleState` model the battle logic reads. -/
structure BattleState where
  player_team : Team
  opponent_team : Team
  weather : Option String
deriving DecidableEq, Repr

/-- The `BattleAction` dataclass of `backend/battle_logic.py` (its optional
`target_index` is unused by the embedded operations). -/
structure BattleAction where
  action_type : String
  user : String
  index : ℕ
deriving DecidableEq, Repr

/-- Out-of-range indexing raises in Python; the embedding totalizes it with a
default combatant (every claim is checked on in-range inputs). -/
def defaultPokemon : Pokemon := ⟨"", [], [], ⟨0, 0, 0, 0, 0, 0⟩, 0, none, stages0⟩

/-- Default move for the same totalization. -/
def defaultMove : Move := ⟨"", .Normal, none, "Physical", 0⟩

/-- Lookup `battle_state[team_key]` for `team_key = "player_team" if
user == "player" else "opponent_team"`. -/
def getTeam (bs : BattleState) (user : String) : Team :=
  if user = "player" then bs.player_team else bs.opponent_team

/-- Lookup `battle_state[opp_key]` for `opp_key = "opponent_team" if
user == "player" else "player_team"`. -/
def getOppTeam (bs : BattleState) (user : String) : Team :=
  if user = "player" then bs.opponent_team else bs.player_team

/-- Write back the defending side's team (the in-place dictionary mutation of
the source, made explicit). -/
def setOppTeam (bs : BattleState) (user : String) (t : Team) : BattleState :=
  if user = "player" then { bs with opponent_team := t } else { bs with player_team := t }

/-- The active combatant
`team["pokemon"][team["active_pokemon_index"]]`. -/
def activeOf (t : Team) : Pokemon :=
  t.pokemon.getD t.active_pokemon_index defaultPokemon

/-- Embedding of `calculate_damage` in `backend/battle_logic.py`: the
(min, max) damage range. Note that it reads only `attacker["stats"]` and
never the stat stages. -/
def calculate_damage (move : Move) (attacker defender : Pokemon)
    (weather : Option String) : ℤ × ℤ :=
  match move.power with
  | none => (0, 0)
  | some p =>
    let stab : ℚ := if move.type ∈ attacker.types then 3/2 else 1
    let type_effect := calculate_type_effectiveness move.type defender.types
    let atk : ℤ := if move.category = "Physical" then attacker.stats.Attack else attacker.stats.SpAttack
    let def_ : ℤ := if move.category = "Physical" then defender.stats.Defense else defender.stats.SpDefense
    let base_damage : ℚ := (2 * (attacker.level : ℚ) / 5 + 2) * (p : ℚ) * (atk : ℚ) / (def_ : ℚ) / 50 + 2
    let weather_bonus : ℚ :=
      match weather with
      | some w =>
        if w = "Sun" ∧ move.type = .Fire then 3/2
        else if w = "Rain" ∧ move.type = .Water then 3/2
        else 1
      | none => 1
    let modifiers : ℚ := stab * type_effect * weather_bonus
    (⌊base_damage * modifiers * (85/100)⌋, ⌊base_damage * modifiers⌋)

/-- Embedding of `get_stat_stage_multiplier` in `backend/ai_logic.py`. -/
def get_stat_stage_multiplier (stage : ℤ) : ℚ :=
  if 0 ≤ stage then ((stage : ℚ) + 2) / 2 else 2 / (|(stage : ℚ)| + 2)

/-- Embedding of `calculate_damage` in `backend/ai_logic.py`: a single
unrounded damage value with stat-stage multipliers applied to the chosen
stats (its `weather` parameter is unused in the source and omitted here). -/
def ai_calculate_damage (move : Move) (attacker defender : Pokemon) : ℚ :=
  match move.power with
  | none => 0
  | some p =>
    let attack : ℚ :=
      if move.category = "Physical" then
        (attacker.stats.Attack : ℚ) * get_stat_stage_multiplier attacker.stat_stages.Attack
      else
        (attacker.stats.SpAttack : ℚ) * get_stat_stage_multiplier attacker.stat_stages.SpAttack
    let defense : ℚ :=
      if move.category = "Physical" then
        (defender.stats.Defense : ℚ) * get_stat_stage_multiplier defender.stat_stages.Defense
      else
        (defender.stats.SpDefense : ℚ) * get_stat_stage_multiplier defender.stat_stages.SpDefense
    (2 * (attacker.level : ℚ) / 5 + 2) * (p : ℚ) * attack / defense / 50 + 2

/-- Damage range as the design document (section 4.2) describes it, written
from the spec's words for comparison with `calculate_damage`: the attacking
and defending stats are first multiplied by their side's stage multiplier
(stage >= 0 gives (stage+2)/2, stage < 0 gives 2/(|stage|+2)); the rest of
the pipeline (base formula, STAB, type effectiveness, weather, 85-100%
floor) is identical. -/
def damage_range_spec (move : Move) (attacker defender : Pokemon)
    (weather : Option String) : ℤ × ℤ :=
  match move.power with
  | none => (0, 0)
  | some p =>
    let stab : ℚ := if move.type ∈ attacker.types then 3/2 else 1
    let type_effect := calculate_type_effectiveness move.type defender.types
    let atk : ℚ :=
      if move.category = "Physical" then
        (attacker.stats.Attack : ℚ) * get_stat_stage_multiplier attacker.stat_stages.Attack
      else
        (attacker.stats.SpAttack : ℚ) * get_stat_stage_multiplier attacker.stat_stages.SpAttack
    let def_ : ℚ :=
      if move.category = "Physical" then
        (defender.stats.Defense : ℚ) * get_stat_stage_multiplier defender.stat_stages.Defense
      else
        (defender.stats.SpDefense : ℚ) * get_stat_stage_multiplier defender.stat_stages.SpDefense
    let base_damage : ℚ := (2 * (attacker.level : ℚ) / 5 + 2) * (p : ℚ) * atk / def_ / 50 + 2
    let weather_bonus : ℚ :=
      match weather with
      | some w =>
        if w = "Sun" ∧ move.type = .Fire then 3/2
        else if w = "Rain" ∧ move.type = .Water then 3/2
        else 1
      | none => 1
    let modifiers : ℚ := stab * type_effect * weather_bonus
    (⌊base_damage * modifiers * (85/100)⌋, ⌊base_damage * modifiers⌋)

/-- Embedding of `evaluate_position` in `backend/battle_logic.py`: mean HP
fraction of the player's roster minus mean HP fraction of the opponent's
roster (a combatant without a `current_hp` entry counts as full). -/
def evaluate_position (bs : BattleState) : ℚ :=
  let teamScore : Team → ℚ := fun t =>
    (t.pokemon.map (fun p => ((p.current_hp.getD p.stats.HP : ℤ) : ℚ) / (p.stats.HP : ℚ))).sum
      / (t.pokemon.length : ℚ)
  teamScore bs.player_team - teamScore bs.opponent_team

/-- Embedding of `simulate_move` in `backend/battle_logic.py`: apply the
midpoint of the damage range to the defender's `current_hp`, mirroring it
into the stats HP entry; a non-move action leaves the state unchanged. -/
def simulate_move (bs : BattleState) (a : BattleAction) : BattleState :=
  if a.action_type = "move" then
    let atkTeam := getTeam bs a.user
    let defTeam := getOppTeam bs a.user
    let attacker := activeOf atkTeam
    let defender := activeOf defTeam
    let move := attacker.moves.getD a.index defaultMove
    let dmg := calculate_damage move attacker defender bs.weather
    let damage : ℤ := (dmg.1 + dmg.2).fdiv 2
    let cur : ℤ := defender.current_hp.getD defender.stats.HP
    let newHP : ℤ := max 0 (cur - damage)
    let defender' : Pokemon :=
      { defender with
          current_hp := some newHP
          stats := { defender.stats with HP := newHP } }
    let defTeam' : Team :=
      { defTeam with pokemon := defTeam.pokemon.set defTeam.active_pokemon_index defender' }
    setOppTeam bs a.user defTeam'
  else bs

/-- A float value as the minimax search of the source uses it: either an
infinite sentinel (`float('-inf')` / `float('inf')`) or a finite rational. -/
inductive FVal where
  | ninf
  | fin (q : ℚ)
  | pinf
deriving DecidableEq, Repr

/-- Strict float comparison `a < b` on sentinel-or-finite values. -/
def FVal.ltb : FVal → FVal → Bool
  | .ninf, .ninf => false
  | .ninf, _ => true
  | .fin _, .ninf => false
  | .fin a, .fin b => a < b
  | .fin _, .pinf => true
  | .pinf, _ => false

/-- Float comparison `a <= b` on sentinel-or-finite values. -/
def FVal.leb : FVal → FVal → Bool
  | .ninf, _ => true
  | .fin _, .ninf => false
  | .fin a, .fin b => a ≤ b
  | .fin _, .pinf => true
  | .pinf, .pinf => true
  | .pinf, _ => false

/-- Python `max` on the value type of the search. -/
def FVal.maxv (a b : FVal) : FVal := if FVal.ltb a b then b else a

/-- Python `min` on the value type of the search. -/
def FVal.minv (a b : FVal) : FVal := if FVal.ltb b a then b else a

/-- The maximizing `for i, move in enumerate(...)` loop of `minimax` in
`backend/battle_logic.py`, with `recur` standing for the depth-reduced
recursive call: update the running best on a strictly larger evaluation,
raise alpha, and break when `beta <= alpha`. -/
def mmLoopMax (recur : BattleState → FVal → FVal → FVal × Option BattleAction)
    (state : BattleState) :
    List ℕ → FVal → Option BattleAction → FVal → FVal → FVal × Option BattleAction
  | [], best, bestA, _, _ => (best, bestA)
  | i :: rest, best, bestA, alpha, beta =>
    let action : BattleAction := ⟨"move", "player", i⟩
    let ev := (recur (simulate_move state action) alpha beta).1
    let best' := if FVal.ltb best ev then ev else best
    let bestA' := if FVal.ltb best ev then some action else bestA
    let alpha' := FVal.maxv alpha ev
    if FVal.leb beta alpha' then (best', bestA')
    else mmLoopMax recur state rest best' bestA' alpha' beta

/-- The minimizing loop of `minimax`, lowering beta symmetrically. -/
def mmLoopMin (recur : BattleState → FVal → FVal → FVal × Option BattleAction)
    (state : BattleState) :
    List ℕ → FVal → Option BattleAction → FVal → FVal → FVal × Option BattleAction
  | [], best, bestA, _, _ => (best, bestA)
  | i :: rest, best, bestA, alpha, beta =>
    let action : BattleAction := ⟨"move", "opponent", i⟩
    let ev := (recur (simulate_move state action) alpha beta).1
    let best' := if FVal.ltb ev best then ev else best
    let bestA' := if FVal.ltb ev best then some action else bestA
    let beta' := FVal.minv beta ev
    if FVal.leb beta' alpha then (best', bestA')
    else mmLoopMin recur state rest best' bestA' alpha beta'

/-- Embedding of `minimax` in `backend/battle_logic.py` (the inner function of
`find_best_move`): depth 0 returns the static evaluation; otherwise the side
to act folds its active combatant's move indices through the alpha-beta
loop, starting from the sentinel `float('-inf')` (maximizing) or
`float('inf')` (minimizing) with no action. -/
def minimax (state : BattleState) : ℕ → FVal → FVal → Bool → FVal × Option BattleAction
  | 0, _, _, _ => (.fin (evaluate_position state), none)
  | d + 1, alpha, beta, true =>
    let active := activeOf state.player_team
    mmLoopMax (fun s a b => minimax s d a b false) state
      (List.range active.moves.length) .ninf none alpha beta
  | d + 1, alpha, beta, false =>
    let active := activeOf state.opponent_team
    mmLoopMin (fun s a b => minimax s d a b true) state
      (List.range active.moves.length) .pinf none alpha beta

/-- Embedding of `evaluate_move` in `backend/battle_logic.py`: average damage
as a percent of the defender's HP stat, +20 for STAB, +30 times the
effectiveness when super effective, and +40 when the move has positive
priority and the attacker's stats HP is below 0.3 of that same stats HP
(the source compares the one HP entry against itself). -/
def evaluate_move (move : Move) (bs : BattleState) (user : String) : ℚ :=
  let attacker := activeOf (getTeam bs user)
  let defender := activeOf (getOppTeam bs user)
  let dmg := calculate_damage move attacker defender bs.weather
  let avg_damage : ℚ := ((dmg.1 : ℚ) + (dmg.2 : ℚ)) / 2
  let damageScore : ℚ :=
    if 0 < defender.stats.HP then avg_damage / (defender.stats.HP : ℚ) * 100 else 0
  let stabBonus : ℚ := if move.type ∈ attacker.types then 20 else 0
  let effectiveness := calculate_type_effectiveness move.type defender.types
  let effBonus : ℚ := if 1 < effectiveness then 30 * effectiveness else 0
  let priorityBonus : ℚ :=
    if 0 < move.priority ∧ (attacker.stats.HP : ℚ) < (attacker.stats.HP : ℚ) * (3/10) then 40
    else 0
  damageScore + stabBonus + effBonus + priorityBonus

/-- The per-candidate body of the loop in `evaluate_switches`: +30 times
(1 - eff) for each opposing move the candidate resists, +20 times eff for
each of the candidate's types that is super effective against the opponent. -/
def switch_in_score (opponent p : Pokemon) : ℚ :=
  let resist : ℚ :=
    (opponent.moves.map (fun m =>
      let eff := calculate_type_effectiveness m.type p.types
      if eff < 1 then 30 * (1 - eff) else 0)).sum
  let matchup : ℚ :=
    (p.types.map (fun t =>
      let eff := calculate_type_effectiveness t opponent.types
      if 1 < eff then 20 * eff else 0)).sum
  resist + matchup

/-- Embedding of `evaluate_switches` in `backend/battle_logic.py`: the maximum
candidate score over every roster member with positive HP (the active
combatant is not excluded), starting from 0. -/
def evaluate_switches (bs : BattleState) (user : String) : ℚ :=
  let team := getTeam bs user
  let opponent := activeOf (getOppTeam bs user)
  team.pokemon.foldl
    (fun best p => if p.stats.HP ≤ 0 then best else max best (switch_in_score opponent p)) 0

/-- The switch-target search of `determine_best_action`: the first roster
index (in order) whose combatant has positive HP and is not the active one. -/
def first_legal_switch (t : Team) : Option ℕ :=
  (List.range t.pokemon.length).find? (fun i =>
    decide (0 < (t.pokemon.getD i defaultPokemon).stats.HP) &&
    decide (i ≠ t.active_pokemon_index))

/-- The move-scoring loop of `determine_best_action`: running best score
(`none` models the initial `float('-inf')`) and best index (initially 0),
updated on a strictly larger score. -/
def best_move_fold (moves : List Move) (bs : BattleState) (user : String) : Option ℚ × ℕ :=
  (List.range moves.length).foldl
    (fun acc i =>
      let score := evaluate_move (moves.getD i defaultMove) bs user
      match acc.1 with
      | none => (some score, i)
      | some b => if b < score then (some score, i) else acc)
    (none, 0)

/-- The `best_switch_score > best_move_score + 20` test of
`determine_best_action`; a `none` best-move score is `float('-inf')`, which
every finite switch score exceeds. -/
def prefers_switch (switchScore : ℚ) (best : Option ℚ) : Bool :=
  match best with
  | none => true
  | some b => b + 20 < switchScore

/-- Embedding of `determine_best_action` in `backend/battle_logic.py`: a
fainted active combatant forces the first legal switch (or no action);
otherwise the best move is chosen unless the switch score beats it by more
than 20, in which case the first legal switch target is returned - not the
best one. -/
def determine_best_action (bs : BattleState) (user : String) : Option BattleAction :=
  let team := getTeam bs user
  let active := activeOf team
  if active.stats.HP ≤ 0 then
    match first_legal_switch team with
    | some i => some ⟨"switch", user, i⟩
    | none => none
  else
    let bm := best_move_fold active.moves bs user
    if prefers_switch (evaluate_switches bs user) bm.1 then
      match first_legal_switch team with
      | some i => some ⟨"switch", user, i⟩
      | none => some ⟨"move", user, bm.2⟩
    else some ⟨"move", user, bm.2⟩

/-- One battle-log line of `apply_move` / `apply_switch`; the embedding keeps
the distinguishing content of each message rather than its exact English
rendering. -/
inductive LogMsg where
  | cannotMove (name : String)
  | alreadyFainted (name : String)
  | usedMove (attacker move : String)
  | superEffective
  | notVeryEffective
  | noEffect
  | dealtDamage (n : ℤ)
  | fainted (name : String)
deriving DecidableEq, Repr

/-- The `effectiveness_text` chain of `apply_move`, branch for branch: the
`effectiveness == 0` arm follows the `effectiveness < 1` arm exactly as in
the source (where it is unreachable). -/
def effectivenessText (eff : ℚ) : Option LogMsg :=
  if 1 < eff then some .superEffective
  else if eff < 1 then some .notVeryEffective
  else if eff = 0 then some .noEffect
  else none

/-- The result dictionary of `apply_move` (its `desc`, `effects` and `log`
keys). -/
structure ActionResult where
  desc : String
  effects : List LogMsg
  log : List LogMsg
deriving DecidableEq, Repr

/-- Embedding of `apply_move` in `backend/battle_logic.py`, with the in-place
mutation of the defender returned as a new state: a fainted attacker or
defender aborts with a message; otherwise the midpoint damage is subtracted
from the defender's stats HP with a floor at 0, the effectiveness note is
attached, and a faint note is appended when the new HP is 0. -/
def apply_move (bs : BattleState) (a : BattleAction) : BattleState × ActionResult :=
  let atkTeam := getTeam bs a.user
  let defTeam := getOppTeam bs a.user
  let attacker := activeOf atkTeam
  let defender := activeOf defTeam
  if attacker.stats.HP ≤ 0 then
    (bs, ⟨"Invalid move", [], [.cannotMove attacker.name]⟩)
  else if defender.stats.HP ≤ 0 then
    (bs, ⟨"Invalid move", [], [.alreadyFainted defender.name]⟩)
  else
    let move := attacker.moves.getD a.index defaultMove
    let dmg := calculate_damage move attacker defender bs.weather
    let damage : ℤ := (dmg.1 + dmg.2).fdiv 2
    let old_hp : ℤ := defender.stats.HP
    let newHP : ℤ := max 0 (old_hp - damage)
    let actual_damage : ℤ := old_hp - newHP
    let eff := calculate_type_effectiveness move.type defender.types
    let effText := effectivenessText eff
    let baseLog : List LogMsg :=
      ([some (.usedMove attacker.name move.name), effText,
        if 0 < actual_damage then some (.dealtDamage actual_damage) else none]).filterMap id
    let log : List LogMsg :=
      if newHP ≤ 0 then baseLog ++ [.fainted defender.name] else baseLog
    let defender' : Pokemon := { defender with stats := { defender.stats with HP := newHP } }
    let defTeam' : Team :=
      { defTeam with pokemon := defTeam.pokemon.set defTeam.active_pokemon_index defender' }
    (setOppTeam bs a.user defTeam',
     ⟨attacker.name ++ " used " ++ move.name, effText.toList, log⟩)

/-- The action-ordering block of `simulate_turn` in `backend/main.py` (the
lines building the `actions` list): the player's then the opponent's
switch, followed by the player's then the opponent's move - no priority or
speed is consulted. -/
def order_actions (player_action opponent_action : BattleAction) : List BattleAction :=
  ((if player_action.action_type = "switch" then [player_action] else []) ++
   (if opponent_action.action_type = "switch" then [opponent_action] else [])) ++
  ((if player_action.action_type = "move" then [player_action] else []) ++
   (if opponent_action.action_type = "move" then [opponent_action] else []))

/-- Embedding of `get_action_priority` inside `sort_actions` in
`backend/battle_logic.py`: (6, active Speed) for a switch, (move priority,
active Speed) for a move. (`sort_actions` itself is not called by the turn
loop of `backend/main.py`.) -/
def get_action_priority (bs : BattleState) (a : BattleAction) : ℤ × ℤ :=
  let pokemon := activeOf (getTeam bs a.user)
  if a.action_type = "switch" then (6, pokemon.stats.Speed)
  else ((pokemon.moves.getD a.index defaultMove).priority, pokemon.stats.Speed)

/-- The liveness test
`any(p["stats"].get("HP", 0) > 0 for p in team["pokemon"])`. -/
def team_alive (t : Team) : Bool :=
  t.pokemon.any (fun p => decide (0 < p.stats.HP))

/-- The pre-turn defeat check of `calculate_battle_strategy` in
`backend/main.py`: the player's side is tested first, so a turn that starts
with both sides empty is declared an opponent win. -/
def pre_turn_winner (bs : BattleState) : Option String :=
  if !team_alive bs.player_team then some "opponent"
  else if !team_alive bs.opponent_team then some "player"
  else none

/-- The player side tag. -/
def sPlayer : String := "player"

/-- The opponent side tag. -/
def sOpponent : String := "opponent"

/-- A combatant whose whole team is down: HP 0. -/
def faintedMon : Pokemon :=
  ⟨"Down", [.Normal], [], ⟨0, 50, 50, 50, 50, 50⟩, 50, some 0, stages0⟩

/-- A state in which both sides have zero non-fainted combatants. -/
def bsBothFainted : BattleState := ⟨⟨[faintedMon], 0⟩, ⟨[faintedMon], 0⟩, none⟩

/-- A slow player combatant with an ordinary-priority move. -/
def slowMon : Pokemon :=
  ⟨"Slow", [.Normal], [⟨"Tackle", .Normal, some 40, "Physical", 0⟩],
   ⟨100, 50, 50, 50, 50, 30⟩, 50, some 100, stages0⟩

/-- A fast opposing combatant with a priority move. -/
def fastMon : Pokemon :=
  ⟨"Fast", [.Normal], [⟨"Quick Attack", .Normal, some 40, "Physical", 1⟩],
   ⟨100, 50, 50, 50, 50, 200⟩, 50, some 100, stages0⟩

/-- Player slow, opponent strictly faster and holding a higher-priority
move. -/
def bsSpeedGap : BattleState := ⟨⟨[slowMon], 0⟩, ⟨[fastMon], 0⟩, none⟩

/-- The player's chosen attack in `bsSpeedGap`. -/
def paSpeedGap : BattleAction := ⟨"move", "player", 0⟩

/-- The opponent's chosen attack in `bsSpeedGap`. -/
def oaSpeedGap : BattleAction := ⟨"move", "opponent", 0⟩

/-- A combatant with an empty move list (no legal attacks). -/
def movelessMon : Pokemon :=
  ⟨"Blank", [.Normal], [], ⟨100, 100, 100, 100, 100, 100⟩, 50, some 100, stages0⟩

/-- Both sides alive but with no legal attacks at either ply. -/
def bsNoMoves : BattleState := ⟨⟨[movelessMon], 0⟩, ⟨[movelessMon], 0⟩, none⟩

/-- Only the player side is moveless; the opponent still has an attack. -/
def bsOnlyPlayerMoveless : BattleState := ⟨⟨[movelessMon], 0⟩, ⟨[fastMon], 0⟩, none⟩

/-- Only the opponent side is moveless; the player still has an attack. -/
def bsOnlyOpponentMoveless : BattleState := ⟨⟨[fastMon], 0⟩, ⟨[movelessMon], 0⟩, none⟩

/-- The acting side's active combatant in an action's context. -/
def attackerOf (bs : BattleState) (a : BattleAction) : Pokemon :=
  activeOf (getTeam bs a.user)

/-- The defending side's active combatant in an action's context. -/
def defenderOf (bs : BattleState) (a : BattleAction) : Pokemon :=
  activeOf (getOppTeam bs a.user)

/-- The Species-Snapshot fields of a combatant (everything except the HP
entry, which `apply_move` / `simulate_move` use as current HP): name,
types, level and the five non-HP final stats agree. -/
def snapshot_preserved (p q : Pokemon) : Prop :=
  q.name = p.name ∧ q.types = p.types ∧ q.level = p.level ∧
  q.stats.Attack = p.stats.Attack ∧ q.stats.Defense = p.stats.Defense ∧
  q.stats.SpAttack = p.stats.SpAttack ∧ q.stats.SpDefense = p.stats.SpDefense ∧
  q.stats.Speed = p.stats.Speed

/-- A 100-power physical move with no STAB against the fixture attacker. -/
def moveSlam : Move := ⟨"Slam", .Normal, some 100, "Physical", 0⟩

/-- Level-50 attacker, all stats 100, no stages. -/
def atkNeutral : Pokemon :=
  ⟨"A", [.Fighting], [moveSlam], ⟨100, 100, 100, 100, 100, 100⟩, 50, some 100, stages0⟩

/-- The same attacker at Attack stage +6. -/
def atkBoosted : Pokemon := { atkNeutral with stat_stages := ⟨6, 0, 0, 0, 0⟩ }

/-- Level-50 defender, all stats 100, neutral typing against `moveSlam`. -/
def defNeutral : Pokemon :=
  ⟨"D", [.Fighting], [], ⟨100, 100, 100, 100, 100, 100⟩, 50, some 100, stages0⟩

/-- A positive-priority STAB move for the C4 attacker. -/
def moveMachPunch : Move := ⟨"Mach Punch", .Fighting, some 40, "Physical", 1⟩

/-- The C4 attacker: its one HP entry reads 20 (battle-start maximum was
100), far below the 0.3 fraction the bonus is meant to reward. -/
def atkLowHP : Pokemon :=
  ⟨"M", [.Fighting], [moveMachPunch], ⟨20, 100, 100, 100, 100, 100⟩, 50, some 20, stages0⟩

/-- A neutral defender for C4. -/
def defC4 : Pokemon :=
  ⟨"N", [.Normal], [⟨"Tackle", .Normal, some 40, "Physical", 0⟩],
   ⟨100, 100, 100, 100, 100, 100⟩, 50, some 100, stages0⟩

/-- The C4 battle state. -/
def bsLowHP : BattleState := ⟨⟨[atkLowHP], 0⟩, ⟨[defC4], 0⟩, none⟩

/-- A STAB physical move for the C6/C8 attack. -/
def moveSlash : Move := ⟨"Slash", .Normal, some 70, "Physical", 0⟩

/-- The C6/C8 attacker. -/
def atkSlash : Pokemon :=
  ⟨"S", [.Normal], [moveSlash], ⟨100, 100, 100, 100, 100, 100⟩, 50, some 100, stages0⟩

/-- The C6/C8 defender, with pairwise-distinct stats. -/
def defSlash : Pokemon :=
  ⟨"R", [.Normal], [], ⟨100, 90, 80, 70, 60, 50⟩, 50, some 100, stages0⟩

/-- The C6/C8 battle state. -/
def bsSlash : BattleState := ⟨⟨[atkSlash], 0⟩, ⟨[defSlash], 0⟩, none⟩

/-- The C6/C8 player attack action. -/
def actSlash : BattleAction := ⟨"move", "player", 0⟩

/-- A Normal-type attack for the C10 scenario. -/
def moveTackle : Move := ⟨"Tackle", .Normal, some 40, "Physical", 0⟩

/-- The C10 attacker. -/
def atkTackle : Pokemon :=
  ⟨"T", [.Normal], [moveTackle], ⟨100, 100, 100, 100, 100, 100⟩, 50, some 100, stages0⟩

/-- A Ghost-type defender: Normal attacks have effectiveness 0 against it. -/
def ghostMon : Pokemon :=
  ⟨"G", [.Ghost], [], ⟨100, 100, 100, 100, 100, 100⟩, 50, some 100, stages0⟩

/-- The C10 battle state. -/
def bsGhost : BattleState := ⟨⟨[atkTackle], 0⟩, ⟨[ghostMon], 0⟩, none⟩

/-- The C10 player attack action. -/
def actTackle : BattleAction := ⟨"move", "player", 0⟩

/-- A status move (no base power) so the best move score is 0. -/
def moveDud : Move := ⟨"Growl", .Normal, none, "Physical", 0⟩

/-- Active combatant for C5: Fighting-type, neutral against the opponent. -/
def p0C5 : Pokemon :=
  ⟨"P0", [.Fighting], [moveDud], ⟨100, 50, 50, 50, 50, 50⟩, 50, some 100, stages0⟩

/-- First legal switch target in index order: Normal-type, switch score 0. -/
def p1C5 : Pokemon :=
  ⟨"P1", [.Normal], [moveDud], ⟨100, 50, 50, 50, 50, 50⟩, 50, some 100, stages0⟩

/-- Second legal switch target: Water-type, the best one against Fire. -/
def p2C5 : Pokemon :=
  ⟨"P2", [.Water], [moveDud], ⟨100, 50, 50, 50, 50, 50⟩, 50, some 100, stages0⟩

/-- The opponent's Fire-type attack. -/
def moveEmber : Move := ⟨"Ember", .Fire, some 40, "Special", 0⟩

/-- The Fire-type opponent. -/
def oppFire : Pokemon :=
  ⟨"O", [.Fire], [moveEmber], ⟨100, 50, 50, 50, 50, 50⟩, 50, some 100, stages0⟩

/-- The C5 battle state: player roster [P0 active, P1, P2] against O. -/
def bsSwitch : BattleState := ⟨⟨[p0C5, p1C5, p2C5], 0⟩, ⟨[oppFire], 0⟩, none⟩

/-! ## Theorems -/

/-- C3 (counterexample): when both teams are simultaneously out of usable
combatants before a turn, the orchestrator's pre-turn check declares the
OPPONENT the winner (the player's side is tested first), not the player as
the claim states. -/
theorem C3_counterexample :
    team_alive bsBothFainted.player_team = false ∧
    team_alive bsBothFainted.opponent_team = false ∧
    pre_turn_winner bsBothFainted = some "opponent" ∧
    pre_turn_winner bsBothFainted ≠ some "player" := by
  refine ⟨rfl, rfl, rfl, by decide⟩

/-- C3 (amended): whenever the player team has zero non-fainted combatants
before a turn - in particular when the opponent team is also empty - the
battle ends with outcome opponent-wins: player defeat is checked first, so
the opponent wins ties. -/
theorem C3_amended (bs : BattleState) (h : team_alive bs.player_team = false) :
    pre_turn_winner bs = some "opponent" := by
  simp [pre_turn_winner, h]

/-- Witness for C3_amended at the both-sides-fainted state. -/
theorem C3_amended_witness :
    team_alive bsBothFainted.player_team = false ∧
    pre_turn_winner bsBothFainted = some "opponent" :=
  ⟨rfl, C3_amended bsBothFainted rfl⟩

/-- C2 (counterexample): in `bsSpeedGap` the opponent's active combatant is
strictly faster and its chosen move has strictly higher priority, yet the
turn resolver of `backend/main.py` executes the player's attack first: the
ordered action list is player-then-opponent. -/
theorem C2_counterexample :
    (activeOf bsSpeedGap.player_team).stats.Speed <
      (activeOf bsSpeedGap.opponent_team).stats.Speed ∧
    (get_action_priority bsSpeedGap paSpeedGap).1 <
      (get_action_priority bsSpeedGap oaSpeedGap).1 ∧
    paSpeedGap.action_type = "move" ∧ oaSpeedGap.action_type = "move" ∧
    paSpeedGap.user = "player" ∧
    order_actions paSpeedGap oaSpeedGap = [paSpeedGap, oaSpeedGap] := by
  refine ⟨by decide, by decide, rfl, rfl, rfl, rfl⟩

/-- C2 (amended): the turn resolver executes switches before attacks, and
within each category the player's action always precedes the opponent's -
move priority and Speed are never consulted. -/
theorem C2_amended (pa oa : BattleAction) :
    (pa.action_type = "move" → oa.action_type = "move" →
      order_actions pa oa = [pa, oa]) ∧
    (pa.action_type = "move" → oa.action_type = "switch" →
      order_actions pa oa = [oa, pa]) ∧
    (pa.action_type = "switch" → oa.action_type = "move" →
      order_actions pa oa = [pa, oa]) ∧
    (pa.action_type = "switch" → oa.action_type = "switch" →
      order_actions pa oa = [pa, oa]) := by
  refine ⟨fun h1 h2 => ?_, fun h1 h2 => ?_, fun h1 h2 => ?_, fun h1 h2 => ?_⟩ <;>
    simp [order_actions, h1, h2]

/-- Witness for C2_amended: two attacks resolve player-first. -/
theorem C2_amended_witness :
    order_actions paSpeedGap oaSpeedGap = [paSpeedGap, oaSpeedGap] :=
  (C2_amended paSpeedGap oaSpeedGap).1 rfl rfl

/-- C7 (counterexample): with remaining depth 1 and an empty move list for
the side to act, `minimax` returns the sentinel `float('-inf')` with no
action - not the static evaluation of the state. -/
theorem C7_counterexample :
    (activeOf bsNoMoves.player_team).moves = [] ∧
    minimax bsNoMoves 1 .ninf .pinf true = (.ninf, none) ∧
    (minimax bsNoMoves 1 .ninf .pinf true).1 ≠ .fin (evaluate_position bsNoMoves) := by
  refine ⟨rfl, rfl, ?_⟩
  rw [show minimax bsNoMoves 1 .ninf .pinf true = (.ninf, none) from rfl]
  simp

/-- C7 (amended): at any positive remaining depth, a side to act whose
active combatant has no moves makes `minimax` return its starting sentinel
- `float('-inf')` for the maximizing side, given only that the player's
move list is empty, and `float('inf')` for the minimizing side, given only
that the opponent's move list is empty - with no action, rather than the
static evaluation; the other side's move list is unconstrained. -/
theorem C7_amended (bs : BattleState) (d : ℕ) (alpha beta : FVal) :
    ((activeOf bs.player_team).moves = [] →
      minimax bs (d + 1) alpha beta true = (.ninf, none)) ∧
    ((activeOf bs.opponent_team).moves = [] →
      minimax bs (d + 1) alpha beta false = (.pinf, none)) := by
  constructor <;> intro h <;> simp [minimax, h, mmLoopMax, mmLoopMin]

/-- Witness for C7_amended at depth 3, at two states where only the side to
act is moveless (the other side still has an attack). -/
theorem C7_amended_witness :
    minimax bsOnlyPlayerMoveless 3 .ninf .pinf true = (.ninf, none) ∧
    minimax bsOnlyOpponentMoveless 3 .ninf .pinf false = (.pinf, none) :=
  ⟨(C7_amended bsOnlyPlayerMoveless 2 .ninf .pinf).1 rfl,
   (C7_amended bsOnlyOpponentMoveless 2 .ninf .pinf).2 rfl⟩

/-- Every single chart factor is 0, 1/2, 1 or 2. -/
theorem chartFactor_cases (a d : PType) :
    chartFactor a d = 0 ∨ chartFactor a d = 1/2 ∨ chartFactor a d = 1 ∨
    chartFactor a d = 2 := by
  cases a <;> cases d <;>
    first
      | exact Or.inl rfl
      | exact Or.inr (Or.inl rfl)
      | exact Or.inr (Or.inr (Or.inl rfl))
      | exact Or.inr (Or.inr (Or.inr rfl))

/-- Products of two chart factors land in the six admissible multipliers. -/
theorem chartFactor_mul_mem {x y : ℚ}
    (hx : x = 0 ∨ x = 1/2 ∨ x = 1 ∨ x = 2)
    (hy : y = 0 ∨ y = 1/2 ∨ y = 1 ∨ y = 2) :
    x * y ∈ ({0, 1/4, 1/2, 1, 2, 4} : Set ℚ) := by
  rcases hx with h | h | h | h <;> rcases hy with g | g | g | g <;> subst h <;> subst g <;>
    simp [Set.mem_insert_iff] <;> norm_num

/-- C9 (confirmed): for every attack type and every ordered list of one or
two defender types, the effectiveness is the product of the
independently-looked-up per-type chart factors (an unlisted pair
contributes 1, so the function is total), and the result is one of
0, 0.25, 0.5, 1, 2, 4. -/
theorem C9_effectiveness_product_and_range (a d1 d2 : PType) :
    calculate_type_effectiveness a [d1] = chartFactor a d1 ∧
    calculate_type_effectiveness a [d1, d2] = chartFactor a d1 * chartFactor a d2 ∧
    calculate_type_effectiveness a [d1] ∈ ({0, 1/4, 1/2, 1, 2, 4} : Set ℚ) ∧
    calculate_type_effectiveness a [d1, d2] ∈ ({0, 1/4, 1/2, 1, 2, 4} : Set ℚ) := by
  have h1 : calculate_type_effectiveness a [d1] = chartFactor a d1 := by
    simp [calculate_type_effectiveness]
  have h2 : calculate_type_effectiveness a [d1, d2] = chartFactor a d1 * chartFactor a d2 := by
    simp [calculate_type_effectiveness]
  refine ⟨h1, h2, ?_, ?_⟩
  · rw [h1]
    have := chartFactor_mul_mem (chartFactor_cases a d1) (Or.inr (Or.inr (Or.inl rfl)) :
      (1 : ℚ) = 0 ∨ (1 : ℚ) = 1/2 ∨ (1 : ℚ) = 1 ∨ (1 : ℚ) = 2)
    simpa using this
  · rw [h2]
    exact chartFactor_mul_mem (chartFactor_cases a d1) (chartFactor_cases a d2)

/-- C1 (counterexample): at Attack stage +6 the range-returning damage
calculation still answers (39, 46) - identical to the all-stages-zero range
- whereas the stage-multiplied pipeline the claim describes yields
(151, 178); at stage 0 the two pipelines agree, so the divergence is
exactly the missing stage multiplier. -/
theorem C1_counterexample :
    calculate_damage moveSlam atkBoosted defNeutral none = (39, 46) ∧
    calculate_damage moveSlam atkNeutral defNeutral none = (39, 46) ∧
    damage_range_spec moveSlam atkBoosted defNeutral none = (151, 178) ∧
    damage_range_spec moveSlam atkNeutral defNeutral none =
      calculate_damage moveSlam atkNeutral defNeutral none ∧
    ((39 : ℤ), (46 : ℤ)) ≠ ((151 : ℤ), (178 : ℤ)) := by
  have hfac : chartFactor PType.Normal PType.Fighting = 1 := rfl
  have hne : (PType.Normal = PType.Fighting) ↔ False := by decide
  refine ⟨?_, ?_, ?_, ?_, by decide⟩ <;>
    norm_num [calculate_damage, damage_range_spec, calculate_type_effectiveness,
      get_stat_stage_multiplier, moveSlam, atkBoosted, atkNeutral, defNeutral,
      stages0, hfac, hne]

/-- C1 (amended): the range-returning damage calculation of
`backend/battle_logic.py` selects the attacking and defending stats by move
category but applies no stat-stage multiplier - its result is unchanged
under any replacement of either side's stages - while the single-value
damage function of `backend/ai_logic.py` does multiply the chosen stats by
(stage+2)/2 resp. 2/(|stage|+2), so its output differs at a non-zero
stage. -/
theorem C1_amended :
    (∀ (m : Move) (a d : Pokemon) (w : Option String) (s s' : StatStages),
      calculate_damage m { a with stat_stages := s } { d with stat_stages := s' } w =
        calculate_damage m a d w) ∧
    ai_calculate_damage moveSlam atkBoosted defNeutral = 178 ∧
    ai_calculate_damage moveSlam atkNeutral defNeutral = 46 ∧
    ai_calculate_damage moveSlam atkBoosted defNeutral ≠
      ai_calculate_damage moveSlam atkNeutral defNeutral := by
  have h1 : ai_calculate_damage moveSlam atkBoosted defNeutral = 178 := by
    norm_num [ai_calculate_damage, get_stat_stage_multiplier, moveSlam, atkBoosted,
      atkNeutral, defNeutral, stages0]
  have h2 : ai_calculate_damage moveSlam atkNeutral defNeutral = 46 := by
    norm_num [ai_calculate_damage, get_stat_stage_multiplier, moveSlam,
      atkNeutral, defNeutral, stages0]
  refine ⟨fun m a d w s s' => rfl, h1, h2, ?_⟩
  rw [h1, h2]
  norm_num

/-- C4 (code bug): the attacker's HP is 20 against a battle-start maximum of
100 - below the 0.3 fraction - and its move has priority 1, yet the score
is 53.5 (damage) + 20 (STAB) + 60 (super effective) = 133.5 with no +40
bonus: the source compares
`attacker["stats"]["HP"] < attacker["stats"]["HP"] * 0.3`, a condition no
non-negative HP can satisfy, so the bonus branch is dead. -/
theorem C4_priority_bonus_never_fires :
    0 < moveMachPunch.priority ∧
    (atkLowHP.stats.HP : ℚ) < (3 / 10) * 100 ∧
    evaluate_move moveMachPunch bsLowHP sPlayer = 267 / 2 := by
  have hfac : chartFactor PType.Fighting PType.Normal = 2 := rfl
  have hmem : (PType.Fighting = PType.Fighting) ↔ True := by decide
  refine ⟨by decide, by norm_num [atkLowHP], ?_⟩
  norm_num [evaluate_move, calculate_damage, calculate_type_effectiveness, activeOf,
    getTeam, getOppTeam, sPlayer, bsLowHP, atkLowHP, defC4, moveMachPunch, stages0,
    hfac, hmem]

/-- Reading a just-written list position: the new value in bounds, the
default out of bounds. -/
theorem getD_set_eq {α : Type} (l : List α) (i : ℕ) (d a : α) :
    (l.set i a).getD i d = if i < l.length then a else d := by
  rw [List.getD_eq_getElem?_getD, List.getElem?_set_self']
  by_cases h : i < l.length
  · simp [List.getElem?_eq_getElem h, h]
  · simp [List.getElem?_eq_none (Nat.le_of_not_lt h), h]

/-- Reading any other list position is unaffected by a write. -/
theorem getD_set_ne {α : Type} (l : List α) {i j : ℕ} (h : j ≠ i) (d a : α) :
    (l.set j a).getD i d = l.getD i d := by
  rw [List.getD_eq_getElem?_getD, List.getElem?_set_ne h, ← List.getD_eq_getElem?_getD]

/-- Reading past the end of a list yields the default. -/
theorem getD_out_of_bounds {α : Type} (l : List α) {i : ℕ} (h : ¬ i < l.length) (d : α) :
    l.getD i d = d := by
  rw [List.getD_eq_getElem?_getD, List.getElem?_eq_none (Nat.le_of_not_lt h)]
  rfl

/-- Writing the defending team leaves the acting side's team unchanged. -/
theorem getTeam_setOppTeam (bs : BattleState) (u : String) (t : Team) :
    getTeam (setOppTeam bs u t) u = getTeam bs u := by
  by_cases h : u = "player" <;> simp [getTeam, setOppTeam, h]

/-- Reading back the defending team after writing it. -/
theorem getOppTeam_setOppTeam (bs : BattleState) (u : String) (t : Team) :
    getOppTeam (setOppTeam bs u t) u = t := by
  by_cases h : u = "player" <;> simp [getOppTeam, setOppTeam, h]

/-- Snapshot preservation is reflexive. -/
theorem snapshot_preserved_refl (p : Pokemon) : snapshot_preserved p p :=
  ⟨rfl, rfl, rfl, rfl, rfl, rfl, rfl, rfl⟩

/-- Overwriting one roster slot with a snapshot-preserving update preserves
the snapshot view of every slot. -/
theorem snapshot_preserved_getD_set (l : List Pokemon) (j : ℕ) (p' : Pokemon)
    (h : snapshot_preserved (l.getD j defaultPokemon) p') (i : ℕ) :
    snapshot_preserved (l.getD i defaultPokemon) ((l.set j p').getD i defaultPokemon) := by
  by_cases hij : i = j
  · subst hij
    rw [getD_set_eq]
    by_cases hb : i < l.length
    · rw [if_pos hb]; exact h
    · rw [if_neg hb, getD_out_of_bounds l hb]
      exact snapshot_preserved_refl _
  · rw [getD_set_ne l (fun hh => hij hh.symm)]
    exact snapshot_preserved_refl _

/-- Every branch of `apply_move` leaves the defending roster's snapshot
fields untouched (only the defender's HP entry is rewritten), and the
acting side's team is returned unchanged. -/
theorem apply_move_snapshot (bs : BattleState) (a : BattleAction) (i : ℕ) :
    snapshot_preserved ((getOppTeam bs a.user).pokemon.getD i defaultPokemon)
      ((getOppTeam (apply_move bs a).1 a.user).pokemon.getD i defaultPokemon) ∧
    getTeam (apply_move bs a).1 a.user = getTeam bs a.user := by
  by_cases h1 : (activeOf (getTeam bs a.user)).stats.HP ≤ 0
  · simp only [apply_move, if_pos h1]
    exact ⟨snapshot_preserved_refl _, trivial⟩
  · by_cases h2 : (activeOf (getOppTeam bs a.user)).stats.HP ≤ 0
    · simp only [apply_move, if_neg h1, if_pos h2]
      exact ⟨snapshot_preserved_refl _, trivial⟩
    · simp only [apply_move, if_neg h1, if_neg h2, getOppTeam_setOppTeam, getTeam_setOppTeam]
      refine ⟨?_, trivial⟩
      refine snapshot_preserved_getD_set _ _ _ ?_ i
      exact ⟨rfl, rfl, rfl, rfl, rfl, rfl, rfl, rfl⟩

/-- The statement of `apply_move_snapshot` for `simulate_move`. -/
theorem simulate_move_snapshot (bs : BattleState) (a : BattleAction) (i : ℕ) :
    snapshot_preserved ((getOppTeam bs a.user).pokemon.getD i defaultPokemon)
      ((getOppTeam (simulate_move bs a) a.user).pokemon.getD i defaultPokemon) ∧
    getTeam (simulate_move bs a) a.user = getTeam bs a.user := by
  by_cases hmv : a.action_type = "move"
  · simp only [simulate_move, if_pos hmv, getOppTeam_setOppTeam, getTeam_setOppTeam]
    refine ⟨?_, trivial⟩
    refine snapshot_preserved_getD_set _ _ _ ?_ i
    exact ⟨rfl, rfl, rfl, rfl, rfl, rfl, rfl, rfl⟩
  · simp only [simulate_move, if_neg hmv]
    exact ⟨snapshot_preserved_refl _, trivial⟩

/-- C6 (counterexample): applying a damaging attack rewrites the defender's
maximum-HP stat entry - it drops from its battle-start value 100 to 45 -
because the source stores current HP in `defender["stats"]["HP"]`. -/
theorem C6_counterexample :
    (activeOf bsSlash.opponent_team).stats.HP = 100 ∧
    (activeOf (apply_move bsSlash actSlash).1.opponent_team).stats.HP = 45 ∧
    (45 : ℤ) ≠ 100 := by
  have hfac : chartFactor PType.Normal PType.Normal = 1 := rfl
  have hfdiv : (0 : ℤ) ⊔ (100 - Int.fdiv 111 2) = 45 := by decide
  refine ⟨rfl, ?_, by decide⟩
  norm_num [apply_move, activeOf, getTeam, getOppTeam, setOppTeam, bsSlash, atkSlash,
    defSlash, moveSlash, actSlash, stages0, calculate_damage, calculate_type_effectiveness,
    hfac, hfdiv]

/-- C6 (amended): move application (both the turn resolver's `apply_move`
and the search's `simulate_move`) preserves every Species-Snapshot field of
every combatant on the defending roster - name, types, level, Attack,
Defense, Sp. Attack, Sp. Defense, Speed - and returns the acting side's
team unchanged; only the defender's HP entry (which the source also uses as
current HP) is rewritten. -/
theorem C6_amended (bs : BattleState) (a : BattleAction) (i : ℕ) :
    snapshot_preserved ((getOppTeam bs a.user).pokemon.getD i defaultPokemon)
      ((getOppTeam (apply_move bs a).1 a.user).pokemon.getD i defaultPokemon) ∧
    getTeam (apply_move bs a).1 a.user = getTeam bs a.user ∧
    snapshot_preserved ((getOppTeam bs a.user).pokemon.getD i defaultPokemon)
      ((getOppTeam (simulate_move bs a) a.user).pokemon.getD i defaultPokemon) ∧
    getTeam (simulate_move bs a) a.user = getTeam bs a.user :=
  ⟨(apply_move_snapshot bs a i).1, (apply_move_snapshot bs a i).2,
   (simulate_move_snapshot bs a i).1, (simulate_move_snapshot bs a i).2⟩

/-- C10 (code bug): a Normal-type attack against a Ghost-type defender has
effectiveness 0, yet the turn resolver's log carries the not-very-effective
note and no no-effect note: the source tests `effectiveness < 1` before
`effectiveness == 0`, so the zero branch - whose text is exactly the
claimed note - is unreachable. -/
theorem C10_zero_effectiveness_note :
    calculate_type_effectiveness moveTackle.type ghostMon.types = 0 ∧
    effectivenessText 0 = some .notVeryEffective ∧
    (apply_move bsGhost actTackle).2.log =
      [.usedMove "T" "Tackle", .notVeryEffective] ∧
    LogMsg.noEffect ∉ (apply_move bsGhost actTackle).2.log := by
  have hfac : chartFactor PType.Normal PType.Ghost = 0 := rfl
  have heff : calculate_type_effectiveness moveTackle.type ghostMon.types = 0 := by
    simp [calculate_type_effectiveness, moveTackle, ghostMon, hfac]
  have htext : effectivenessText 0 = some .notVeryEffective := by
    norm_num [effectivenessText]
  have hfdiv : (0 : ℤ) ⊔ (100 - Int.fdiv 0 2) = 100 := by decide
  have hlog : (apply_move bsGhost actTackle).2.log =
      [.usedMove "T" "Tackle", .notVeryEffective] := by
    norm_num [apply_move, activeOf, getTeam, getOppTeam, setOppTeam, bsGhost, atkTackle,
      ghostMon, moveTackle, actTackle, stages0, calculate_damage,
      calculate_type_effectiveness, effectivenessText, hfac, hfdiv,
      List.filterMap_cons, List.filterMap_nil]
  refine ⟨heff, htext, hlog, ?_⟩
  rw [hlog]
  simp

/-- No faint note ever sits in the pre-faint part of an attack's log. -/
theorem fainted_notin_baseLog (anm mnm nm : String) (eff : ℚ) (ad : ℤ) :
    LogMsg.fainted nm ∉
      (([some (LogMsg.usedMove anm mnm), effectivenessText eff,
         if 0 < ad then some (LogMsg.dealtDamage ad) else none] :
        List (Option LogMsg)).filterMap id) := by
  intro hmem
  rw [List.mem_filterMap] at hmem
  obtain ⟨o, ho, hid⟩ := hmem
  simp only [id_eq] at hid
  subst hid
  simp only [List.mem_cons, List.not_mem_nil, or_false] at ho
  rcases ho with h | h | h
  · simp at h
  · unfold effectivenessText at h
    split_ifs at h
    all_goals simp at h
  · split_ifs at h
    all_goals simp at h

/-- Counting the faint note in the log `apply_move` builds: 1 exactly when
the new HP is 0, else 0. -/
theorem count_fainted_log (anm mnm dnm : String) (eff : ℚ) (ad newHP : ℤ)
    (hnn : 0 ≤ newHP) :
    ((if newHP ≤ 0 then
        (([some (LogMsg.usedMove anm mnm), effectivenessText eff,
           if 0 < ad then some (LogMsg.dealtDamage ad) else none] :
          List (Option LogMsg)).filterMap id) ++ [LogMsg.fainted dnm]
      else
        (([some (LogMsg.usedMove anm mnm), effectivenessText eff,
           if 0 < ad then some (LogMsg.dealtDamage ad) else none] :
          List (Option LogMsg)).filterMap id)).count (LogMsg.fainted dnm)) =
      if newHP = 0 then 1 else 0 := by
  have hbase := List.count_eq_zero.mpr (fainted_notin_baseLog anm mnm dnm eff ad)
  by_cases hz : newHP = 0
  · rw [if_pos (le_of_eq hz), if_pos hz, List.count_append, hbase]
    simp
  · have hpos : ¬ newHP ≤ 0 := fun h => hz (le_antisymm h hnn)
    rw [if_neg hpos, if_neg hz, hbase]

/-- C8 (confirmed): a resolved attack leaves the defender's HP at
max 0 (old - damage), never negative, and the faint note appears in the
log exactly when the new HP is 0; an attack against an already-fainted
defender is rejected - state unchanged - with no second faint note. -/
theorem C8_hp_clamped_faint_once (bs : BattleState) (a : BattleAction) :
    (0 < (attackerOf bs a).stats.HP → 0 < (defenderOf bs a).stats.HP →
      0 ≤ (defenderOf (apply_move bs a).1 a).stats.HP ∧
      ((apply_move bs a).2.log.count (LogMsg.fainted (defenderOf bs a).name) =
        if (defenderOf (apply_move bs a).1 a).stats.HP = 0 then 1 else 0)) ∧
    ((defenderOf bs a).stats.HP ≤ 0 → 0 < (attackerOf bs a).stats.HP →
      (apply_move bs a).1 = bs ∧
      (apply_move bs a).2.log.count (LogMsg.fainted (defenderOf bs a).name) = 0) := by
  constructor
  · intro hatk hdef
    rw [attackerOf] at hatk
    rw [defenderOf] at hdef
    have h1 : ¬ (activeOf (getTeam bs a.user)).stats.HP ≤ 0 := not_le.mpr hatk
    have h2 : ¬ (activeOf (getOppTeam bs a.user)).stats.HP ≤ 0 := not_le.mpr hdef
    have hb : (getOppTeam bs a.user).active_pokemon_index <
        (getOppTeam bs a.user).pokemon.length := by
      by_contra hnb
      have hdft : activeOf (getOppTeam bs a.user) = defaultPokemon := by
        rw [activeOf]; exact getD_out_of_bounds _ hnb _
      rw [hdft] at hdef
      exact absurd hdef (by norm_num [defaultPokemon])
    simp only [apply_move, if_neg h1, if_neg h2, defenderOf, getOppTeam_setOppTeam]
    rw [activeOf]
    simp only
    rw [getD_set_eq, if_pos hb]
    refine ⟨le_sup_left, ?_⟩
    exact count_fainted_log _ _ _ _ _ _ le_sup_left
  · intro hdef hatk
    rw [attackerOf] at hatk
    rw [defenderOf] at hdef
    have h1 : ¬ (activeOf (getTeam bs a.user)).stats.HP ≤ 0 := not_le.mpr hatk
    simp only [apply_move, if_neg h1, if_pos hdef, defenderOf]
    refine ⟨trivial, ?_⟩
    simp [List.count_cons]

/-- Witness for C8 at the Slash scenario: both sides alive, defender ends on
45 HP, no faint note. -/
theorem C8_witness :
    0 ≤ (defenderOf (apply_move bsSlash actSlash).1 actSlash).stats.HP ∧
    ((apply_move bsSlash actSlash).2.log.count
        (LogMsg.fainted (defenderOf bsSlash actSlash).name) =
      if (defenderOf (apply_move bsSlash actSlash).1 actSlash).stats.HP = 0 then 1 else 0) :=
  (C8_hp_clamped_faint_once bsSlash actSlash).1 (by decide) (by decide)

/-- The only move scores 0 in the C5 state. -/
theorem evalMoveDud : evaluate_move moveDud bsSwitch sPlayer = 0 := by
  have hf : chartFactor PType.Normal PType.Fire = 1 := rfl
  norm_num [evaluate_move, calculate_damage, calculate_type_effectiveness, activeOf,
    getTeam, getOppTeam, sPlayer, bsSwitch, p0C5, oppFire, moveDud, stages0, hf,
    show (PType.Normal = PType.Fighting) ↔ False from by decide]

/-- The best-move fold of the C5 state lands on score 0, index 0. -/
theorem bsSwitch_best_move :
    best_move_fold (activeOf (getTeam bsSwitch sPlayer)).moves bsSwitch sPlayer =
      (some 0, 0) := by
  rw [show (activeOf (getTeam bsSwitch sPlayer)).moves = [moveDud] from rfl]
  simp [best_move_fold, List.range_succ, evalMoveDud]

/-- The candidate scores of the three roster members against the Fire
opponent. -/
theorem switch_scores_C5 :
    switch_in_score oppFire p0C5 = 0 ∧
    switch_in_score oppFire p1C5 = 0 ∧
    switch_in_score oppFire p2C5 = 55 := by
  have h1 : chartFactor PType.Fire PType.Fighting = 1 := rfl
  have h2 : chartFactor PType.Fighting PType.Fire = 1 := rfl
  have h3 : chartFactor PType.Fire PType.Normal = 1 := rfl
  have h4 : chartFactor PType.Normal PType.Fire = 1 := rfl
  have h5 : chartFactor PType.Fire PType.Water = 1/2 := rfl
  have h6 : chartFactor PType.Water PType.Fire = 2 := rfl
  refine ⟨?_, ?_, ?_⟩ <;>
    norm_num [switch_in_score, calculate_type_effectiveness, oppFire, p0C5, p1C5, p2C5,
      moveEmber, h1, h2, h3, h4, h5, h6]

/-- The switch evaluation of the C5 state is 55 (achieved by P2 alone). -/
theorem bsSwitch_switch_score : evaluate_switches bsSwitch sPlayer = 55 := by
  have h := switch_scores_C5
  have hhp : (¬ p0C5.stats.HP ≤ 0) ∧ (¬ p1C5.stats.HP ≤ 0) ∧ (¬ p2C5.stats.HP ≤ 0) := by
    decide
  simp only [evaluate_switches]
  rw [show activeOf (getOppTeam bsSwitch sPlayer) = oppFire from rfl,
    show (getTeam bsSwitch sPlayer).pokemon = [p0C5, p1C5, p2C5] from rfl]
  simp only [List.foldl_cons, List.foldl_nil, if_neg hhp.1, if_neg hhp.2.1,
    if_neg hhp.2.2]
  rw [h.1, h.2.1, h.2.2]
  norm_num [max_def]

/-- The first legal switch target of the C5 state is index 1. -/
theorem bsSwitch_first_legal :
    first_legal_switch (getTeam bsSwitch sPlayer) = some 1 := by decide

/-- C5 (counterexample): in `bsSwitch` the selector prefers switching
(switch score 55 beats best move score 0 by more than 20) and returns the
switch to index 1, the first legal teammate - but teammate 2 is also legal
and has the strictly larger switch score 55, so the returned target does
not achieve the maximum. -/
theorem C5_counterexample :
    determine_best_action bsSwitch sPlayer = some ⟨"switch", "player", 1⟩ ∧
    0 < (bsSwitch.player_team.pokemon.getD 2 defaultPokemon).stats.HP ∧
    (2 : ℕ) ≠ bsSwitch.player_team.active_pokemon_index ∧
    switch_in_score (activeOf bsSwitch.opponent_team)
        (bsSwitch.player_team.pokemon.getD 1 defaultPokemon) <
      switch_in_score (activeOf bsSwitch.opponent_team)
        (bsSwitch.player_team.pokemon.getD 2 defaultPokemon) := by
  have hact : ¬ (activeOf (getTeam bsSwitch sPlayer)).stats.HP ≤ 0 := by decide
  have hpref : prefers_switch (evaluate_switches bsSwitch sPlayer)
      (best_move_fold (activeOf (getTeam bsSwitch sPlayer)).moves bsSwitch sPlayer).1 = true := by
    rw [bsSwitch_best_move, bsSwitch_switch_score]
    norm_num [prefers_switch]
  refine ⟨?_, by decide, by decide, ?_⟩
  · simp only [determine_best_action, if_neg hact, hpref, if_true, bsSwitch_first_legal]
    rfl
  · have h := switch_scores_C5
    have hp1 : bsSwitch.player_team.pokemon.getD 1 defaultPokemon = p1C5 := rfl
    have hp2 : bsSwitch.player_team.pokemon.getD 2 defaultPokemon = p2C5 := rfl
    have hop : activeOf bsSwitch.opponent_team = oppFire := rfl
    rw [hp1, hp2, hop, h.2.1, h.2.2]
    norm_num

/-- C5 (amended): whenever the selector prefers switching - the switch
evaluation exceeds the best move score by more than 20 - it returns a
switch to the FIRST roster index holding a non-fainted, non-active
teammate, irrespective of that teammate's own switch score. -/
theorem C5_amended (bs : BattleState) (user : String) (b : ℚ) (j i : ℕ)
    (h1 : ¬ (activeOf (getTeam bs user)).stats.HP ≤ 0)
    (h2 : best_move_fold (activeOf (getTeam bs user)).moves bs user = (some b, j))
    (h3 : b + 20 < evaluate_switches bs user)
    (h4 : first_legal_switch (getTeam bs user) = some i) :
    determine_best_action bs user = some ⟨"switch", user, i⟩ := by
  have hpref : prefers_switch (evaluate_switches bs user)
      (best_move_fold (activeOf (getTeam bs user)).moves bs user).1 = true := by
    rw [h2]
    simp [prefers_switch, h3]
  simp only [determine_best_action, if_neg h1, hpref, if_true, h4]

/-- Witness for C5_amended at the C5 state. -/
theorem C5_amended_witness :
    determine_best_action bsSwitch sPlayer = some ⟨"switch", sPlayer, 1⟩ :=
  C5_amended bsSwitch sPlayer 0 0 1 (by decide) bsSwitch_best_move
    (by rw [bsSwitch_switch_score]; norm_num) bsSwitch_first_legal
